import Mathlib

/-!
Shallow embedding of the CO₂ emission predictor app (src/app.py).

The app is a single Streamlit script: it loads a serialized regression
model once (`load_model`, lines 18-29), collects five form fields
(lines 67-112), and on submission builds a one-row pandas DataFrame
(lines 119-125), calls `model.predict` (line 128), and renders the
result (lines 131-185).

Numeric predictions are modelled as rationals; the predictor is an
arbitrary function from the feature record to a rational.  The
submission handler is instrumented with the list of inputs the
predictor was called with, so that claims about whether the predictor
is invoked are statable.
-/

namespace EmissionPredictor

/-- The fuel type options of the selectbox (app.py line 80). -/
inductive FuelType where
  | Petrol
  | Diesel
  | Hybrid
  | Electric
deriving DecidableEq, Repr

/-- The transmission options of the radio control (app.py line 106). -/
inductive Transmission where
  | Manual
  | Automatic
deriving DecidableEq, Repr

/-- The transient entity built from the five form controls on each
submission. -/
structure PredictionRequest where
  model_year : Int
  fuel_type : FuelType
  kms_driven : Int
  engine_cc : Int
  transmission : Transmission
deriving DecidableEq, Repr

/-- The string the code passes for a fuel type (the selectbox options are
strings in app.py line 80). -/
def fuelTypeStr : FuelType → String
  | FuelType.Petrol => "Petrol"
  | FuelType.Diesel => "Diesel"
  | FuelType.Hybrid => "Hybrid"
  | FuelType.Electric => "Electric"

/-- The string the code passes for a transmission (app.py line 106). -/
def transmissionStr : Transmission → String
  | Transmission.Manual => "Manual"
  | Transmission.Automatic => "Automatic"

/-- A cell of the feature record: pandas columns here hold either an
integer or a string. -/
inductive Cell where
  | int (n : Int)
  | str (s : String)
deriving DecidableEq, Repr

/-- A pandas DataFrame built from a dict of column name to list of
values, in insertion order (app.py lines 119-125). -/
structure DataFrame where
  cols : List (String × List Cell)
deriving DecidableEq, Repr

/-- The feature record built on submission (app.py lines 119-125):
a one-row DataFrame with the five columns in the dict's insertion
order. -/
def input_data (r : PredictionRequest) : DataFrame :=
  ⟨[("Model_Year", [Cell.int r.model_year]),
    ("Fuel_Type", [Cell.str (fuelTypeStr r.fuel_type)]),
    ("KMs_Driven", [Cell.int r.kms_driven]),
    ("Engine_CC", [Cell.int r.engine_cc]),
    ("Transmission_Type", [Cell.str (transmissionStr r.transmission)])]⟩

/-- The loaded model: `model.predict(df)[0]` is modelled as a function
from the feature record to a rational estimate. -/
def Predictor : Type := DataFrame → ℚ

/-- Result of `load_model` (app.py lines 18-29): the cached predictor
reference, plus whether `st.error` was shown. -/
structure LoadResult where
  model : Option Predictor
  errorShown : Bool

/-- `load_model` (app.py lines 18-29): fetching and deserializing the
artifact is modelled as an `Except` input; on failure the exception is
caught, an error is shown and `None` is returned. -/
def load_model (fetch : Except String Predictor) : LoadResult :=
  match fetch with
  | Except.ok m => { model := some m, errorShown := false }
  | Except.error _ => { model := none, errorShown := true }

/-- The color / icon / message triple chosen by the tier branch
(app.py lines 136-147). -/
structure TierDisplay where
  emission_color : String
  emission_icon : String
  emission_message : String
deriving DecidableEq, Repr

/-- The tier selection of app.py lines 136-147: `if prediction < 100`,
`elif prediction < 180`, `else`. -/
def tierOf (prediction : ℚ) : TierDisplay :=
  if prediction < 100 then
    { emission_color := "green", emission_icon := "✅",
      emission_message := "Low Emissions" }
  else if prediction < 180 then
    { emission_color := "orange", emission_icon := "⚠️",
      emission_message := "Moderate Emissions" }
  else
    { emission_color := "red", emission_icon := "❌",
      emission_message := "High Emissions" }

/-- Rounding to one decimal place, as the display format string
`.1f` does (app.py line 152). -/
def round1 (q : ℚ) : ℚ := ((round (q * 10) : ℤ) : ℚ) / 10

/-- The comparison bar chart (app.py lines 161-175): the label series,
the value series and the bar palette. -/
structure Chart where
  labels : List String
  values : List ℚ
  colors : List String
deriving DecidableEq, Repr

/-- Everything the result pane renders (app.py lines 131-185):
the success banner and note of the Electric branch, the numeric value
shown in the header, the tier triple, the comparison chart, and
whether the tips block is shown. -/
structure RenderOutput where
  successBanner : Option String
  note : Option String
  displayedEstimate : Option ℚ
  tier : Option TierDisplay
  chart : Option Chart
  tipsShown : Bool
deriving DecidableEq, Repr

/-- The result-rendering branch (app.py lines 131-185), as a function of
the whole request and the numeric prediction.  The Electric branch
(lines 131-133) shows a fixed banner with the literal 0 and renders
neither chart nor tips; the other branch (lines 134-185) shows the
rounded prediction with the tier triple, the four-bar comparison chart
whose last bar uses the tier color, and the tips block when the raw
prediction exceeds 150. -/
def renderResult (r : PredictionRequest) (prediction : ℚ) : RenderOutput :=
  if r.fuel_type = FuelType.Electric then
    { successBanner := some "## 🎉 0 g/km",
      note := some "Electric vehicles produce zero direct CO₂ emissions!",
      displayedEstimate := some 0,
      tier := none,
      chart := none,
      tipsShown := false }
  else
    let t := tierOf prediction
    { successBanner := none,
      note := none,
      displayedEstimate := some (round1 prediction),
      tier := some t,
      chart := some
        { labels := ["Small Petrol Car", "Average Diesel Car", "SUV",
                     "Your Vehicle"],
          values := [120, 150, 200, prediction],
          colors := ["#1f77b4", "#1f77b4", "#1f77b4", t.emission_color] },
      tipsShown := decide (150 < prediction) }

/-- The rendered output together with the list of feature records the
predictor was called with during the submission. -/
structure SubmitTrace where
  output : RenderOutput
  predictCalls : List DataFrame
deriving DecidableEq, Repr

/-- The `if submitted:` block (app.py lines 117-185) with a loaded
predictor: line 128 calls `model.predict(input_data)[0]`
unconditionally, before the Electric check of line 131, and the result
pane is rendered from the prediction. -/
def submittedBranch (m : Predictor) (r : PredictionRequest) : SubmitTrace :=
  let input := input_data r
  let prediction := m input
  { output := renderResult r prediction, predictCalls := [input] }

/-- The `if submitted:` block with the possibly-absent cached model:
when `load_model` returned `None`, line 128 evaluates
`None.predict(...)`, which raises an unhandled AttributeError; nothing
in the block catches it. -/
def submittedBranchOpt (model : Option Predictor) (r : PredictionRequest) :
    Except String SubmitTrace :=
  match model with
  | none =>
      Except.error "AttributeError: NoneType object has no attribute predict"
  | some m => Except.ok (submittedBranch m r)

/-- Clamping to a closed integer interval: the slider (lines 69-75) and
the number input (lines 86-93) only yield values between their
min_value and max_value. -/
def clampInt (lo hi x : Int) : Int := max lo (min hi x)

/-- The engine displacement options of the selectbox (app.py line 98). -/
def engineOptions : List Int :=
  [1000, 1200, 1500, 1800, 2000, 2200, 2500, 2800, 3000, 3200, 3500,
   3800, 4000, 4500, 5000]

/-- The fuel type options of the selectbox (app.py line 80). -/
def fuelOptions : List FuelType :=
  [FuelType.Petrol, FuelType.Diesel, FuelType.Hybrid, FuelType.Electric]

/-- The transmission options of the radio (app.py line 106). -/
def transmissionOptions : List Transmission :=
  [Transmission.Manual, Transmission.Automatic]

/-- Raw interaction state of the five widgets, before the widgets
constrain it: an arbitrary integer for each ranged control, an
arbitrary index for each enumerated control. -/
structure WidgetState where
  yearRaw : Int
  fuelIdx : Nat
  kmsRaw : Int
  engineIdx : Nat
  transIdx : Nat

/-- The `prediction_form` (app.py lines 67-112): each control maps the
raw interaction to a value inside its declared domain — the slider and
the number input clamp to their bounds, the selectboxes and the radio
can only yield one of their options. -/
def prediction_form (w : WidgetState) : PredictionRequest :=
  { model_year := clampInt 1985 2025 w.yearRaw,
    fuel_type := fuelOptions.getD (w.fuelIdx % fuelOptions.length)
      FuelType.Petrol,
    kms_driven := clampInt 0 500000 w.kmsRaw,
    engine_cc := engineOptions.getD (w.engineIdx % engineOptions.length)
      2000,
    transmission :=
      transmissionOptions.getD (w.transIdx % transmissionOptions.length)
        Transmission.Manual }

/-- The declared domains of §3 of the spec for a PredictionRequest. -/
def validRequest (r : PredictionRequest) : Prop :=
  1985 ≤ r.model_year ∧ r.model_year ≤ 2025 ∧
  r.fuel_type ∈ fuelOptions ∧
  0 ≤ r.kms_driven ∧ r.kms_driven ≤ 500000 ∧
  r.engine_cc ∈ engineOptions ∧
  r.transmission ∈ transmissionOptions

/-- A concrete Electric request. -/
def reqElectric : PredictionRequest :=
  { model_year := 2020, fuel_type := FuelType.Electric,
    kms_driven := 10000, engine_cc := 1500,
    transmission := Transmission.Automatic }

/-- The Petrol request of end-to-end scenario A of the spec. -/
def reqPetrol : PredictionRequest :=
  { model_year := 2018, fuel_type := FuelType.Petrol,
    kms_driven := 50000, engine_cc := 2000,
    transmission := Transmission.Manual }

/-- A second Petrol request, differing from `reqPetrol` in every
non-fuel field. -/
def reqPetrolB : PredictionRequest :=
  { model_year := 1999, fuel_type := FuelType.Petrol,
    kms_driven := 250000, engine_cc := 5000,
    transmission := Transmission.Automatic }

/-- A stub predictor returning a constant 137. -/
def stubPredictor137 : Predictor := fun _ => 137

/-- A stub predictor returning 142.3, as in scenario A of the spec. -/
def stubPredictor1423 : Predictor := fun _ => 1423 / 10

/-- A stub predictor returning 210.7, as in scenario C of the spec. -/
def stubPredictor2107 : Predictor := fun _ => 2107 / 10

/-- Selecting any index modulo the length of a nonempty list yields an
element of the list. -/
theorem getD_mod_mem {α : Type} (l : List α) (d : α) (i : Nat)
    (h : 0 < l.length) : l.getD (i % l.length) d ∈ l := by
  have hlt : i % l.length < l.length := Nat.mod_lt _ h
  rw [List.getD_eq_getElem?_getD, List.getElem?_eq_getElem hlt]
  exact List.getElem_mem hlt

/-- C1 counterexample: at a concrete Electric request, it is not the
case that the displayed estimate is 0 AND the predictor was never
invoked — line 128 calls the predictor unconditionally before the
Electric check, so the call list is nonempty. -/
theorem C1_counterexample :
    ¬ ((submittedBranch stubPredictor137 reqElectric).output.displayedEstimate
        = some 0 ∧
       (submittedBranch stubPredictor137 reqElectric).predictCalls = []) := by
  decide

/-- C1 (amended): for every request with fuel_type = Electric, the
displayed estimate is exactly 0, but the predictor IS invoked, exactly
once with the submitted feature record; its result is discarded. -/
theorem C1_electric_zero_but_predict_called (m : Predictor)
    (r : PredictionRequest) (h : r.fuel_type = FuelType.Electric) :
    (submittedBranch m r).output.displayedEstimate = some 0 ∧
    (submittedBranch m r).predictCalls = [input_data r] := by
  refine ⟨?_, rfl⟩
  simp [submittedBranch, renderResult, h]

/-- C1 witness: the amended claim at the concrete Electric request. -/
theorem C1_witness :
    (submittedBranch stubPredictor137 reqElectric).output.displayedEstimate
      = some 0 ∧
    (submittedBranch stubPredictor137 reqElectric).predictCalls
      = [input_data reqElectric] :=
  C1_electric_zero_but_predict_called stubPredictor137 reqElectric rfl

/-- C2 (code bug): when the model fetch throws, the failure is caught
and an error is shown and the cached reference is None — but a
subsequent submission evaluates None.predict and raises an unhandled
AttributeError instead of reporting a graceful failure. -/
theorem C2_submission_after_failed_load_faults :
    (load_model (Except.error "download failed")).errorShown = true ∧
    (load_model (Except.error "download failed")).model
      = (none : Option Predictor) ∧
    submittedBranchOpt (load_model (Except.error "download failed")).model
        reqPetrol
      = Except.error
          "AttributeError: NoneType object has no attribute predict" :=
  ⟨rfl, rfl, rfl⟩

/-- C3: the display tier is chosen by fixed half-open thresholds:
below 100 the green Low triple, in [100, 180) the orange Moderate
triple, at or above 180 the red High triple; in particular 99.9 is
Low, 100.0 is Moderate, 179.9 is Moderate and 180.0 is High. -/
theorem C3_tier_thresholds (q : ℚ) :
    (q < 100 → tierOf q = ⟨"green", "✅", "Low Emissions"⟩) ∧
    (100 ≤ q → q < 180 → tierOf q = ⟨"orange", "⚠️", "Moderate Emissions"⟩) ∧
    (180 ≤ q → tierOf q = ⟨"red", "❌", "High Emissions"⟩) ∧
    tierOf (999 / 10) = ⟨"green", "✅", "Low Emissions"⟩ ∧
    tierOf 100 = ⟨"orange", "⚠️", "Moderate Emissions"⟩ ∧
    tierOf (1799 / 10) = ⟨"orange", "⚠️", "Moderate Emissions"⟩ ∧
    tierOf 180 = ⟨"red", "❌", "High Emissions"⟩ := by
  refine ⟨?_, ?_, ?_, by norm_num [tierOf], by norm_num [tierOf],
    by norm_num [tierOf], by norm_num [tierOf]⟩
  · intro h
    simp [tierOf, h]
  · intro h1 h2
    simp [tierOf, h2, not_lt.mpr h1]
  · intro h
    have h100 : ¬ q < 100 := not_lt.mpr (by linarith)
    simp [tierOf, h100, not_lt.mpr h]

/-- C3 witness: the threshold characterization applied at 50, 150
and 200. -/
theorem C3_witness :
    tierOf 50 = ⟨"green", "✅", "Low Emissions"⟩ ∧
    tierOf 150 = ⟨"orange", "⚠️", "Moderate Emissions"⟩ ∧
    tierOf 200 = ⟨"red", "❌", "High Emissions"⟩ :=
  ⟨(C3_tier_thresholds 50).1 (by norm_num),
   (C3_tier_thresholds 150).2.1 (by norm_num) (by norm_num),
   (C3_tier_thresholds 200).2.2.1 (by norm_num)⟩

/-- C4: for every non-Electric request, the displayed numeric estimate
is the predictor's raw output rounded to one decimal place, with no
other transformation. -/
theorem C4_displayed_equals_rounded_raw (m : Predictor)
    (r : PredictionRequest) (h : r.fuel_type ≠ FuelType.Electric) :
    (submittedBranch m r).output.displayedEstimate
      = some (round1 (m (input_data r))) := by
  simp [submittedBranch, renderResult, h]

/-- C4 witness: with the stub predictor returning 142.3 on the Petrol
request of scenario A, the displayed estimate is 142.3 itself. -/
theorem C4_witness :
    (submittedBranch stubPredictor1423 reqPetrol).output.displayedEstimate
      = some (1423 / 10) := by
  rw [C4_displayed_equals_rounded_raw stubPredictor1423 reqPetrol
    (by decide)]
  norm_num [round1, stubPredictor1423]

/-- C5: the efficiency-tips block is rendered if and only if the fuel
type is not Electric and the raw estimate strictly exceeds 150. -/
theorem C5_tips_iff (m : Predictor) (r : PredictionRequest) :
    (submittedBranch m r).output.tipsShown = true ↔
      (r.fuel_type ≠ FuelType.Electric ∧ 150 < m (input_data r)) := by
  by_cases hf : r.fuel_type = FuelType.Electric
  · simp [submittedBranch, renderResult, hf]
  · simp [submittedBranch, renderResult, hf]

/-- C5 witness: with the stub predictor returning 210.7 on the Petrol
request, the tips block is shown. -/
theorem C5_witness :
    (submittedBranch stubPredictor2107 reqPetrol).output.tipsShown = true :=
  (C5_tips_iff stubPredictor2107 reqPetrol).mpr
    ⟨by decide, by norm_num [stubPredictor2107]⟩

/-- C6: whenever the comparison chart is rendered, it has exactly four
bars: the fixed references 120, 150, 200 with their labels, plus the
current raw estimate labeled Your Vehicle, the fourth bar colored with
the chosen tier's color. -/
theorem C6_chart_contents (m : Predictor) (r : PredictionRequest)
    (c : Chart) (h : (submittedBranch m r).output.chart = some c) :
    c.labels = ["Small Petrol Car", "Average Diesel Car", "SUV",
      "Your Vehicle"] ∧
    c.values = [120, 150, 200, m (input_data r)] ∧
    c.colors = ["#1f77b4", "#1f77b4", "#1f77b4",
      (tierOf (m (input_data r))).emission_color] ∧
    c.labels.length = 4 ∧ c.values.length = 4 ∧ c.colors.length = 4 := by
  cases c with
  | mk ls vs cs =>
    by_cases hf : r.fuel_type = FuelType.Electric
    · simp [submittedBranch, renderResult, hf] at h
    · simp only [submittedBranch, renderResult, hf, if_false,
        if_neg hf, Option.some.injEq, Chart.mk.injEq] at h
      obtain ⟨h1, h2, h3⟩ := h
      subst h1
      subst h2
      subst h3
      exact ⟨rfl, rfl, rfl, rfl, rfl, rfl⟩

/-- The concrete chart produced by the 142.3 stub on the Petrol
request. -/
def chartA : Chart :=
  { labels := ["Small Petrol Car", "Average Diesel Car", "SUV",
      "Your Vehicle"],
    values := [120, 150, 200, 1423 / 10],
    colors := ["#1f77b4", "#1f77b4", "#1f77b4", "orange"] }

/-- C6 witness: the chart contents at the concrete Petrol submission
with the 142.3 stub predictor. -/
theorem C6_witness :
    chartA.labels = ["Small Petrol Car", "Average Diesel Car", "SUV",
      "Your Vehicle"] ∧
    chartA.values = [120, 150, 200, stubPredictor1423 (input_data reqPetrol)] ∧
    chartA.colors = ["#1f77b4", "#1f77b4", "#1f77b4",
      (tierOf (stubPredictor1423 (input_data reqPetrol))).emission_color] ∧
    chartA.labels.length = 4 ∧ chartA.values.length = 4 ∧
    chartA.colors.length = 4 :=
  C6_chart_contents stubPredictor1423 reqPetrol chartA
    (by
      simp only [submittedBranch, renderResult, stubPredictor1423, reqPetrol]
      rw [if_neg (by decide)]
      norm_num [tierOf, chartA])

/-- C7: every request the form constructs satisfies the declared
domains — year in [1985, 2025], fuel among the four options,
kilometers in [0, 500000], engine displacement among the fixed
options, transmission Manual or Automatic. -/
theorem C7_form_in_domain (w : WidgetState) :
    validRequest (prediction_form w) := by
  simp only [validRequest, prediction_form, clampInt]
  exact ⟨le_max_left _ _, max_le (by norm_num) (min_le_left _ _),
    getD_mod_mem _ _ _ (by decide),
    le_max_left _ _, max_le (by norm_num) (min_le_left _ _),
    getD_mod_mem _ _ _ (by decide),
    getD_mod_mem _ _ _ (by decide)⟩

/-- C8: the result presenter is pure in the request beyond the fuel
type — two requests with the same fuel type and the same estimate
render identically. -/
theorem C8_presenter_pure (r1 r2 : PredictionRequest) (p : ℚ)
    (h : r1.fuel_type = r2.fuel_type) :
    renderResult r1 p = renderResult r2 p := by
  simp only [renderResult, h]

/-- C8 witness: two Petrol requests differing in every other field
render the same output for the estimate 142.3. -/
theorem C8_witness :
    renderResult reqPetrol (1423 / 10) = renderResult reqPetrolB (1423 / 10) :=
  C8_presenter_pure reqPetrol reqPetrolB (1423 / 10) rfl

/-- A stub predictor returning 999, to exhibit that the Electric output
ignores the prediction. -/
def stubPredictor999 : Predictor := fun _ => 999

/-- C9: for every Electric request the rendered output is the fixed
zero banner with the celebratory note, and neither the chart nor the
tips block is rendered, whatever the predictor returns. -/
theorem C9_electric_render (m : Predictor) (r : PredictionRequest)
    (h : r.fuel_type = FuelType.Electric) :
    (submittedBranch m r).output =
      { successBanner := some "## 🎉 0 g/km",
        note := some "Electric vehicles produce zero direct CO₂ emissions!",
        displayedEstimate := some 0,
        tier := none, chart := none, tipsShown := false } := by
  simp [submittedBranch, renderResult, h]

/-- C9 witness: the Electric output at the concrete Electric request,
with a predictor that would return 999. -/
theorem C9_witness :
    (submittedBranch stubPredictor999 reqElectric).output =
      { successBanner := some "## 🎉 0 g/km",
        note := some "Electric vehicles produce zero direct CO₂ emissions!",
        displayedEstimate := some 0,
        tier := none, chart := none, tipsShown := false } :=
  C9_electric_render stubPredictor999 reqElectric rfl

/-- C10: every submission hands the predictor exactly one feature
record: a one-row table with the five columns Model_Year, Fuel_Type,
KMs_Driven, Engine_CC, Transmission_Type in that order, each holding
the corresponding control's current value. -/
theorem C10_feature_record_shape (m : Predictor) (r : PredictionRequest) :
    (submittedBranch m r).predictCalls = [input_data r] ∧
    (input_data r).cols.map Prod.fst =
      ["Model_Year", "Fuel_Type", "KMs_Driven", "Engine_CC",
       "Transmission_Type"] ∧
    (input_data r).cols.map (fun c => c.2.length) = [1, 1, 1, 1, 1] ∧
    (input_data r).cols.map Prod.snd =
      [[Cell.int r.model_year], [Cell.str (fuelTypeStr r.fuel_type)],
       [Cell.int r.kms_driven], [Cell.int r.engine_cc],
       [Cell.str (transmissionStr r.transmission)]] :=
  ⟨rfl, rfl, rfl, rfl⟩

end EmissionPredictor
